import Mathlib

/-!
Shallow embedding of the `domo-pitchfork` client library core:
the OAuth token store (`src/auth.rs`) and the dataset resource builders
(`src/domo/data/datasets.rs`).  Network and JSON (de)serialization are
external collaborators; they are modelled as explicit function parameters
(`fetch`, `net`, `parse`, `reason`) so that every definition is executable.
-/

namespace Domo

/-- The `is_success` predicate of the HTTP status types used by both
`reqwest` and `http-types`/`surf`: a status is successful iff it lies in
`200..=299`. -/
def isSuccess (status : Nat) : Bool :=
  200 ≤ status && status < 300

/-- An HTTP response as the code observes it: a status code and the body
text (for `get_data` the raw bytes, which we model as the same string). -/
structure HttpResponse where
  status : Nat
  body : String
deriving DecidableEq, Repr

/-- `DomoToken` from `src/auth.rs` lines 13-25. -/
structure DomoToken where
  access_token : String
  token_type : String
  expires_in : Nat
  scope : String
  customer : String
  env : String
  user_id : Nat
  role : String
  jti : String
  domain : String
deriving DecidableEq, Repr

/-- `DomoScope` from `src/auth.rs` lines 29-37: the seven boolean scope
flags. -/
structure DomoScope where
  data : Bool
  user : Bool
  audit : Bool
  dashboard : Bool
  buzz : Bool
  account : Bool
  workflow : Bool
deriving DecidableEq, Repr

/-- `DomoClientAppCredentials` from `src/auth.rs` lines 40-45. -/
structure DomoClientAppCredentials where
  client_id : String
  client_secret : String
  token : Option DomoToken
  domo_scope : DomoScope
deriving DecidableEq, Repr

/-- `token_info` from `src/auth.rs` lines 176-179: the only place that
stores a token into the credentials. -/
def token_info (c : DomoClientAppCredentials) (t : DomoToken) :
    DomoClientAppCredentials :=
  { c with token := some t }

/-- The scope-string accumulation of `request_access_token`
(`src/auth.rs` lines 219-243), one flag at a time: if the flag is set,
append `%20` when the accumulator is non-empty, then append the name. -/
def addScopeFlag (scopes : String) (flag : Bool) (name : String) : String :=
  if flag then (if scopes.isEmpty then scopes else scopes ++ "%20") ++ name
  else scopes

/-- The complete scope string built by `request_access_token`
(`src/auth.rs` lines 219-243).  Note the source only tests the `data`,
`user`, `audit` and `dashboard` flags; `buzz`, `account` and `workflow`
never contribute. -/
def scope_string (sc : DomoScope) : String :=
  addScopeFlag
    (addScopeFlag
      (addScopeFlag
        (addScopeFlag "" sc.data "data")
        sc.user "user")
      sc.audit "audit")
    sc.dashboard "dashboard"

/-- The scope string as the spec describes it: the percent-encoded
space-joined names of exactly the set flags, over all seven flags
`data, user, audit, dashboard, buzz, account, workflow` in that fixed
enumeration order.  This definition follows the spec's words and is
compared with `scope_string`, which follows the source. -/
def spec_scope_string (sc : DomoScope) : String :=
  String.intercalate "%20"
    (((([(sc.data, "data"), (sc.user, "user"), (sc.audit, "audit"),
        (sc.dashboard, "dashboard"), (sc.buzz, "buzz"),
        (sc.account, "account"), (sc.workflow, "workflow")]
      : List (Bool × String)).filter Prod.fst).map Prod.snd))

/-- The pure core of the free function `fetch_access_token`
(`src/auth.rs` lines 263-289), given the HTTP response delivered by the
transport: on a 2xx status the body is parsed into a token (`parse`
models `serde_json::from_str`; the source unwraps, so a parse failure
aborts where we return `none`); on a non-2xx status the function prints
an error and returns `none`.  A transport-level send failure panics in
the source and has no value in this model. -/
def fetch_access_token (resp : HttpResponse)
    (parse : String → Option DomoToken) : Option DomoToken :=
  if isSuccess resp.status then parse resp.body else none

/-- `request_access_token` (`src/auth.rs` lines 216-251): build the
scope string, then call the fetcher with client id, client secret and
the scope string.  `fetch` abstracts the HTTP exchange of
`fetch_access_token`. -/
def request_access_token (c : DomoClientAppCredentials)
    (fetch : String → String → String → Option DomoToken) :
    Option DomoToken :=
  let scopes := scope_string c.domo_scope
  match fetch c.client_id c.client_secret scopes with
  | some token => some token
  | none => none

/-- `get_access_token` (`src/auth.rs` lines 201-214): return the cached
token's `access_token` when present; otherwise request a new token and
return its `access_token`, or the empty string when the request yielded
no token. -/
def get_access_token (c : DomoClientAppCredentials)
    (fetch : String → String → String → Option DomoToken) : String :=
  match c.token with
  | some token => token.access_token
  | none =>
    match request_access_token c fetch with
    | some new_token => new_token.access_token
    | none => ""

/-- One call of `get_access_token` viewed as a state transition on the
credentials.  The source method takes `&self` (an immutable borrow, and
no field uses interior mutability), so the credentials after the call
are exactly the credentials before it. -/
def get_access_token_step (c : DomoClientAppCredentials)
    (fetch : String → String → String → Option DomoToken) :
    String × DomoClientAppCredentials :=
  (get_access_token c fetch, c)

/-- The error values that flow out of the dataset builders' `execute`
methods as `Box<dyn Error>`.  `domoErr` models `DomoErr(String)` from
`error.rs`, visible here only through its constructions in
`src/domo/data/datasets.rs`; `tokenFailure` models an arbitrary error
propagated from `get_token()` by the `?` operator; `decodeFailure`
models the body-decoding error of `surf::Response::body_json` (its
payload abstracted as the offending body text). -/
inductive ApiError where
  | tokenFailure (msg : String)
  | domoErr (msg : String)
  | decodeFailure (body : String)
deriving DecidableEq, Repr

/-- An outgoing HTTP request as the builders assemble it with `surf`:
method, URL, headers and body. -/
structure Request where
  method : String
  url : String
  headers : List (String × String)
  body : String
deriving DecidableEq, Repr

/-- `DatasetApiListBuilder` (`src/domo/data/datasets.rs` lines 143-150).
`Api` stands for the shared `Arc<DomoApi>` client handle. -/
structure DatasetApiListBuilder (Api : Type) where
  api : Api
  limit : Option Nat
  offset : Option Nat
  sort : Option String

/-- `DatasetApiListBuilder::new` (`src/domo/data/datasets.rs` lines
152-160): defaults are `limit = Some(50)`, `offset = None`,
`sort = Some("name")`. -/
def DatasetApiListBuilder.new {Api : Type} (client : Api) :
    DatasetApiListBuilder Api :=
  { api := client, limit := some 50, offset := none, sort := some "name" }

/-- The `limit` setter (`src/domo/data/datasets.rs` lines 161-164); a
pure field update (Rust: `self.limit = Some(limit)` on `&mut self`). -/
def DatasetApiListBuilder.set_limit {Api : Type}
    (b : DatasetApiListBuilder Api) (n : Nat) : DatasetApiListBuilder Api :=
  { b with limit := some n }

/-- The `offset` setter (`src/domo/data/datasets.rs` lines 165-168). -/
def DatasetApiListBuilder.set_offset {Api : Type}
    (b : DatasetApiListBuilder Api) (n : Nat) : DatasetApiListBuilder Api :=
  { b with offset := some n }

/-- The `sort` setter (`src/domo/data/datasets.rs` lines 169-172). -/
def DatasetApiListBuilder.set_sort {Api : Type}
    (b : DatasetApiListBuilder Api) (s : String) : DatasetApiListBuilder Api :=
  { b with sort := some s }

/-- `DatasetApiUploadBuilder` (`src/domo/data/datasets.rs` lines 49-53). -/
structure DatasetApiUploadBuilder (Api : Type) where
  api : Api
  dataset_id : String
  data : Option String

/-- `DatasetApiUploadBuilder::new` (`src/domo/data/datasets.rs` lines
55-61): `data` starts as `None`. -/
def DatasetApiUploadBuilder.new {Api : Type} (client : Api)
    (dataset_id : String) : DatasetApiUploadBuilder Api :=
  { api := client, dataset_id := dataset_id, data := none }

/-- The `data` method (`src/domo/data/datasets.rs` lines 63-66):
`self.data = Some(serialize_csv_str(&data, false)?)`.  The external CSV
serializer's outcome on the given records is passed in as `serialized`;
its failure propagates, its success overwrites the `data` field. -/
def DatasetApiUploadBuilder.data_records {Api : Type}
    (b : DatasetApiUploadBuilder Api) (serialized : Except ApiError String) :
    Except ApiError (DatasetApiUploadBuilder Api) :=
  match serialized with
  | .error e => .error e
  | .ok s => .ok { b with data := some s }

/-- The `csv_str` method (`src/domo/data/datasets.rs` lines 68-71):
`self.data = Some(csv.to_string())`. -/
def DatasetApiUploadBuilder.csv_str {Api : Type}
    (b : DatasetApiUploadBuilder Api) (csv : String) :
    DatasetApiUploadBuilder Api :=
  { b with data := some csv }

/-- The request assembled by `DatasetApiUploadBuilder::execute`
(`src/domo/data/datasets.rs` lines 75-79) once a bearer token is in
hand: `none` when no data was set, otherwise a `PUT` to
`/v1/datasets/{id}/data` with the bearer header, `Content-Type:
text/csv`, and the stored data as the literal body. -/
def upload_request {Api : Type} (b : DatasetApiUploadBuilder Api)
    (token : String) : Option Request :=
  match b.data with
  | none => none
  | some body =>
    some { method := "PUT"
           url := "https://api.domo.com/v1/datasets/" ++ b.dataset_id ++ "/data"
           headers := [("Authorization", "Bearer " ++ token),
                       ("Content-Type", "text/csv")]
           body := body }

/-- The response mapping of `DatasetApiUploadBuilder::execute`
(`src/domo/data/datasets.rs` lines 81-85): 2xx is success, otherwise
`DomoErr(format!("{}: {}", status.canonical_reason(), body))`.
`reason` models `canonical_reason` from the external `http-types`
crate. -/
def upload_result (resp : HttpResponse) (reason : Nat → String) :
    Except ApiError Unit :=
  if isSuccess resp.status then .ok ()
  else .error (.domoErr (reason resp.status ++ ": " ++ resp.body))

/-- `DatasetApiUploadBuilder::execute` (`src/domo/data/datasets.rs`
lines 73-86) end to end: first `get_token().await?` (outcome passed in
as `tok`), then the `ok_or` check that data was set, then the single
HTTP exchange (`net` maps the assembled request to the response the
transport delivers) and the response mapping. -/
def upload_execute {Api : Type} (b : DatasetApiUploadBuilder Api)
    (tok : Except ApiError String) (net : Request → HttpResponse)
    (reason : Nat → String) : Except ApiError Unit :=
  match tok with
  | .error e => .error e
  | .ok token =>
    match upload_request b token with
    | none => .error (.domoErr "No Data was set to upload")
    | some req => upload_result (net req) reason

/-- The response mapping of `DatasetApiBuilder::delete`
(`src/domo/data/datasets.rs` lines 21-30): 2xx is success, otherwise
`DomoErr(status.canonical_reason().into())` — the reason only, the body
text is not read. -/
def delete_result (resp : HttpResponse) (reason : Nat → String) :
    Except ApiError Unit :=
  if isSuccess resp.status then .ok ()
  else .error (.domoErr (reason resp.status))

/-- The response mapping of `DatasetApiQueryDataBuilder::execute`
(`src/domo/data/datasets.rs` lines 101-111): on 2xx decode the body
(`parse` models `body_json`), otherwise
`DomoErr(format!("{}: {}", reason, body))`. -/
def query_data_result {D : Type} (resp : HttpResponse)
    (reason : Nat → String) (parse : String → Option D) : Except ApiError D :=
  if isSuccess resp.status then
    match parse resp.body with
    | some d => .ok d
    | none => .error (.decodeFailure resp.body)
  else .error (.domoErr (reason resp.status ++ ": " ++ resp.body))

/-- The response mapping of `DatasetApiGetDataBuilder::execute`
(`src/domo/data/datasets.rs` lines 135-140):
`send(req).await?.body_bytes().await?` — the body bytes are returned as
success with no status check at all. -/
def get_data_result (resp : HttpResponse) : Except ApiError String :=
  .ok resp.body

/-- The response mapping of `DatasetApiBuilder::info`
(`src/domo/data/datasets.rs` lines 15-20):
`send(req).await?.body_json().await?` — the body is decoded with no
status check; `parse` models `body_json` into the `Dataset` type `D`
(declared in the out-of-scope `domo/dataset.rs`). -/
def info_result {D : Type} (resp : HttpResponse)
    (parse : String → Option D) : Except ApiError D :=
  match parse resp.body with
  | some d => .ok d
  | none => .error (.decodeFailure resp.body)

/-- The response mapping of `DatasetApiListBuilder::execute`
(`src/domo/data/datasets.rs` lines 173-178): identical shape to `info`,
decoding the body into a `Vec<Dataset>` with no status check. -/
def list_result {D : Type} (resp : HttpResponse)
    (parse : String → Option D) : Except ApiError D :=
  match parse resp.body with
  | some d => .ok d
  | none => .error (.decodeFailure resp.body)

/-- Claim C1, counterexample: with an empty cache and a fetcher that
succeeds (the call returns the fetched token "tokA"), the credentials
after the call still have `token = none`, and a subsequent call is
answered by the fetcher again (here a second fetcher returning "tokB"),
not by any cache.  So a successful token fetch during `get_access_token`
does not populate the token cache. -/
theorem c1_no_cache_population_cex :
    (get_access_token_step
        ⟨"id", "secret", none, ⟨true, false, false, false, false, false, false⟩⟩
        (fun _ _ _ =>
          some ⟨"tokA", "bearer", 0, "data", "", "", 0, "", "", ""⟩)).2.token
      = none ∧
    get_access_token
        ⟨"id", "secret", none, ⟨true, false, false, false, false, false, false⟩⟩
        (fun _ _ _ =>
          some ⟨"tokA", "bearer", 0, "data", "", "", 0, "", "", ""⟩)
      = "tokA" ∧
    get_access_token
        (get_access_token_step
          ⟨"id", "secret", none, ⟨true, false, false, false, false, false, false⟩⟩
          (fun _ _ _ =>
            some ⟨"tokA", "bearer", 0, "data", "", "", 0, "", "", ""⟩)).2
        (fun _ _ _ =>
          some ⟨"tokB", "bearer", 0, "data", "", "", 0, "", "", ""⟩)
      = "tokB" :=
  ⟨rfl, rfl, rfl⟩

/-- Claim C1, amended: `get_access_token` takes the credentials by
immutable borrow and leaves them unchanged, so a successful fetch does
not populate the token cache; with an empty cache every call consults
the fetcher anew, and the cache is populated only by `token_info`. -/
theorem c1_get_access_token_never_writes_cache
    (c : DomoClientAppCredentials)
    (f g : String → String → String → Option DomoToken)
    (h : c.token = none) :
    (get_access_token_step c f).2 = c ∧
    get_access_token (get_access_token_step c f).2 g
      = get_access_token c g ∧
    get_access_token c f
      = (match request_access_token c f with
         | some t => t.access_token
         | none => "") ∧
    ∀ t : DomoToken, (token_info c t).token = some t := by
  refine ⟨rfl, rfl, ?_, fun t => rfl⟩
  simp [get_access_token, h]

/-- Witness for C1's amended theorem at concrete credentials with an
empty cache. -/
theorem c1_get_access_token_never_writes_cache_witness :
    (get_access_token_step
        ⟨"id", "secret", none, ⟨true, false, false, false, false, false, false⟩⟩
        (fun _ _ _ => none)).2
      = ⟨"id", "secret", none, ⟨true, false, false, false, false, false, false⟩⟩ ∧
    get_access_token
        (get_access_token_step
          ⟨"id", "secret", none, ⟨true, false, false, false, false, false, false⟩⟩
          (fun _ _ _ => none)).2
        (fun _ _ _ => none)
      = get_access_token
          ⟨"id", "secret", none, ⟨true, false, false, false, false, false, false⟩⟩
          (fun _ _ _ => none) ∧
    get_access_token
        ⟨"id", "secret", none, ⟨true, false, false, false, false, false, false⟩⟩
        (fun _ _ _ => none)
      = (match request_access_token
            ⟨"id", "secret", none, ⟨true, false, false, false, false, false, false⟩⟩
            (fun _ _ _ => none) with
         | some t => t.access_token
         | none => "") ∧
    ∀ t : DomoToken,
      (token_info
          ⟨"id", "secret", none, ⟨true, false, false, false, false, false, false⟩⟩
          t).token = some t :=
  c1_get_access_token_never_writes_cache
    ⟨"id", "secret", none, ⟨true, false, false, false, false, false, false⟩⟩
    (fun _ _ _ => none) (fun _ _ _ => none) rfl

/-- Claim C2, confirmed: with a populated cache, `get_access_token`
returns exactly the cached token's `access_token`, and the result does
not depend on the fetcher at all (no network request is made and the
token's `expires_in` is never examined — the conclusion holds for every
cached token, however expired). -/
theorem c2_get_access_token_cached (c : DomoClientAppCredentials)
    (t : DomoToken) (f g : String → String → String → Option DomoToken)
    (h : c.token = some t) :
    get_access_token c f = t.access_token ∧
    get_access_token c f = get_access_token c g := by
  constructor <;> simp [get_access_token, h]

/-- Witness for C2 at concrete credentials holding a cached token, with
two fetchers that would return different tokens if consulted. -/
theorem c2_get_access_token_cached_witness :
    get_access_token
        ⟨"id", "secret",
          some ⟨"cachedTok", "bearer", 0, "data", "", "", 0, "", "", ""⟩,
          ⟨true, false, false, false, false, false, false⟩⟩
        (fun _ _ _ =>
          some ⟨"freshA", "bearer", 0, "data", "", "", 0, "", "", ""⟩)
      = "cachedTok" ∧
    get_access_token
        ⟨"id", "secret",
          some ⟨"cachedTok", "bearer", 0, "data", "", "", 0, "", "", ""⟩,
          ⟨true, false, false, false, false, false, false⟩⟩
        (fun _ _ _ =>
          some ⟨"freshA", "bearer", 0, "data", "", "", 0, "", "", ""⟩)
      = get_access_token
          ⟨"id", "secret",
            some ⟨"cachedTok", "bearer", 0, "data", "", "", 0, "", "", ""⟩,
            ⟨true, false, false, false, false, false, false⟩⟩
          (fun _ _ _ =>
            some ⟨"freshB", "bearer", 0, "data", "", "", 0, "", "", ""⟩) :=
  c2_get_access_token_cached
    ⟨"id", "secret",
      some ⟨"cachedTok", "bearer", 0, "data", "", "", 0, "", "", ""⟩,
      ⟨true, false, false, false, false, false, false⟩⟩
    ⟨"cachedTok", "bearer", 0, "data", "", "", 0, "", "", ""⟩
    (fun _ _ _ =>
      some ⟨"freshA", "bearer", 0, "data", "", "", 0, "", "", ""⟩)
    (fun _ _ _ =>
      some ⟨"freshB", "bearer", 0, "data", "", "", 0, "", "", ""⟩)
    rfl

/-- Claim C3, counterexample: when the token endpoint answers with the
non-2xx status 401, `get_access_token` returns the empty string — a
sentinel success value, not a typed `AuthError::RequestFailed` error (no
such error type exists in the source; `get_access_token` returns a plain
`String`). -/
theorem c3_non2xx_returns_sentinel_cex :
    isSuccess 401 = false ∧
    get_access_token
        ⟨"id", "secret", none, ⟨true, false, false, false, false, false, false⟩⟩
        (fun _ _ _ =>
          fetch_access_token ⟨401, "unauthorized"⟩ (fun _ => none))
      = "" :=
  ⟨rfl, rfl⟩

/-- Claim C3, amended: `get_access_token` returns a plain `String`, not
a `Result`.  On a non-2xx token-endpoint response `fetch_access_token`
yields no token (with no retry — the fetch is consulted once by
construction), and `get_access_token` with an empty cache then returns
the empty string as a sentinel; a transport-level send failure panics in
the source rather than producing any error value. -/
theorem c3_non2xx_token_fetch (resp : HttpResponse)
    (parse : String → Option DomoToken) (c : DomoClientAppCredentials)
    (h : isSuccess resp.status = false) (hc : c.token = none) :
    fetch_access_token resp parse = none ∧
    get_access_token c (fun _ _ _ => fetch_access_token resp parse) = "" := by
  have h1 : fetch_access_token resp parse = none := by
    simp [fetch_access_token, h]
  refine ⟨h1, ?_⟩
  simp [get_access_token, hc, request_access_token, h1]

/-- Witness for C3's amended theorem at a concrete 500 response and
concrete credentials with an empty cache. -/
theorem c3_non2xx_token_fetch_witness :
    fetch_access_token ⟨500, "server error"⟩ (fun _ => none) = none ∧
    get_access_token
        ⟨"id", "secret", none, ⟨true, false, false, false, false, false, false⟩⟩
        (fun _ _ _ => fetch_access_token ⟨500, "server error"⟩ (fun _ => none))
      = "" :=
  c3_non2xx_token_fetch ⟨500, "server error"⟩ (fun _ => none)
    ⟨"id", "secret", none, ⟨true, false, false, false, false, false, false⟩⟩
    rfl rfl

/-- Claim C4, counterexample: with only the `buzz` flag set, the source
builds the empty scope string, while the claimed seven-flag enumeration
would build "buzz" — the `buzz`, `account` and `workflow` flags never
reach the scope string. -/
theorem c4_seven_flag_scope_cex :
    scope_string ⟨false, false, false, false, true, false, false⟩ = "" ∧
    spec_scope_string ⟨false, false, false, false, true, false, false⟩
      = "buzz" ∧
    ("" : String) ≠ "buzz" :=
  ⟨rfl, rfl, by decide⟩

/-- Claim C4, amended: the scope string built before a token fetch is
the percent-encoded space-joined names of exactly the set flags among
`data, user, audit, dashboard` in that fixed order; the `buzz`,
`account` and `workflow` flags are ignored (equivalently, the source's
string agrees with the spec's seven-flag enumeration applied to the
scope with those three flags cleared). -/
theorem c4_scope_string_four_flags_only (d u a dash b acc w : Bool) :
    scope_string ⟨d, u, a, dash, b, acc, w⟩
      = spec_scope_string ⟨d, u, a, dash, false, false, false⟩ := by
  cases d <;> cases u <;> cases a <;> cases dash <;> rfl

/-- Claim C5, confirmed: for any subset of the `data`, `user`, `audit`,
`dashboard` flags (all other flags false), the scope string is the
`%20`-joined flag names in the fixed order `data, user, audit,
dashboard`, and it is empty when no flags are set. -/
theorem c5_scope_string_subsets :
    (∀ d u a dash : Bool,
      scope_string ⟨d, u, a, dash, false, false, false⟩
        = String.intercalate "%20"
            ((([(d, "data"), (u, "user"), (a, "audit"), (dash, "dashboard")]
              : List (Bool × String)).filter Prod.fst).map Prod.snd)) ∧
    scope_string ⟨false, false, false, false, false, false, false⟩ = "" := by
  refine ⟨?_, rfl⟩
  intro d u a dash
  cases d <;> cases u <;> cases a <;> cases dash <;> rfl

/-- Claim C6, counterexample: at the non-2xx status 404, `get_data`
returns the raw error body as a success value (it never checks the
status), and `delete` returns an error carrying only the status reason,
without the response body text.  So it is not the case that every
resource-endpoint operation maps non-2xx to an error containing both the
status reason and the body. -/
theorem c6_non2xx_error_shape_cex :
    isSuccess 404 = false ∧
    get_data_result ⟨404, "dataset not found"⟩
      = Except.ok "dataset not found" ∧
    delete_result ⟨404, "dataset not found"⟩ (fun _ => "Not Found")
      = Except.error (ApiError.domoErr "Not Found") :=
  ⟨rfl, rfl, rfl⟩

/-- Claim C6, amended: on a non-2xx response, `upload` and `query_data`
fail with an error containing both the status reason and the raw body
text; `delete` fails with an error containing only the status reason;
`get_data` returns the raw body as a success value regardless of status;
and `info` and `list` never consult the status, decoding the body the
same way whatever the status is. -/
theorem c6_non2xx_per_endpoint (resp : HttpResponse)
    (reason : Nat → String) (h : isSuccess resp.status = false) :
    upload_result resp reason
      = .error (.domoErr (reason resp.status ++ ": " ++ resp.body)) ∧
    (∀ (D : Type) (parse : String → Option D),
      query_data_result resp reason parse
        = .error (.domoErr (reason resp.status ++ ": " ++ resp.body))) ∧
    delete_result resp reason = .error (.domoErr (reason resp.status)) ∧
    get_data_result resp = .ok resp.body ∧
    (∀ (D : Type) (parse : String → Option D) (s : Nat),
      info_result resp parse = info_result ⟨s, resp.body⟩ parse ∧
      list_result resp parse = list_result ⟨s, resp.body⟩ parse) := by
  refine ⟨?_, fun D parse => ?_, ?_, rfl, fun D parse s => ⟨rfl, rfl⟩⟩ <;>
    simp [upload_result, query_data_result, delete_result, h]

/-- Witness for C6's amended theorem at a concrete 500 response. -/
theorem c6_non2xx_per_endpoint_witness :
    upload_result ⟨500, "boom"⟩ (fun _ => "Internal Server Error")
      = .error (.domoErr
          ((fun _ => "Internal Server Error") 500 ++ ": " ++ "boom")) ∧
    (∀ (D : Type) (parse : String → Option D),
      query_data_result ⟨500, "boom"⟩ (fun _ => "Internal Server Error") parse
        = .error (.domoErr
            ((fun _ => "Internal Server Error") 500 ++ ": " ++ "boom"))) ∧
    delete_result ⟨500, "boom"⟩ (fun _ => "Internal Server Error")
      = .error (.domoErr ((fun _ => "Internal Server Error") 500)) ∧
    get_data_result ⟨500, "boom"⟩ = .ok "boom" ∧
    (∀ (D : Type) (parse : String → Option D) (s : Nat),
      info_result ⟨500, "boom"⟩ parse = info_result ⟨s, "boom"⟩ parse ∧
      list_result ⟨500, "boom"⟩ parse = list_result ⟨s, "boom"⟩ parse) :=
  c6_non2xx_per_endpoint ⟨500, "boom"⟩ (fun _ => "Internal Server Error") rfl

/-- Claim C7, confirmed: on the upload builder, `execute` with no data
set (and token acquisition succeeding) yields exactly the
`DomoErr("No Data was set to upload")` error; and after `csv_str s` the
assembled request carries the literal string `s` as its body with the
`Content-Type: text/csv` header. -/
theorem c7_upload_no_data_and_csv_body {Api : Type}
    (b : DatasetApiUploadBuilder Api) (t : String)
    (net : Request → HttpResponse) (reason : Nat → String)
    (h : b.data = none) :
    upload_execute b (.ok t) net reason
      = .error (.domoErr "No Data was set to upload") ∧
    ∀ s : String,
      upload_request (b.csv_str s) t
        = some { method := "PUT"
                 url := "https://api.domo.com/v1/datasets/" ++ b.dataset_id
                          ++ "/data"
                 headers := [("Authorization", "Bearer " ++ t),
                             ("Content-Type", "text/csv")]
                 body := s } := by
  refine ⟨?_, fun s => rfl⟩
  simp [upload_execute, upload_request, h]

/-- Witness for C7 at a concrete fresh upload builder over a unit client
handle. -/
theorem c7_upload_no_data_and_csv_body_witness :
    upload_execute (⟨(), "ds1", none⟩ : DatasetApiUploadBuilder Unit)
        (.ok "tok") (fun _ => ⟨200, ""⟩) (fun _ => "OK")
      = .error (.domoErr "No Data was set to upload") ∧
    ∀ s : String,
      upload_request
          ((⟨(), "ds1", none⟩ : DatasetApiUploadBuilder Unit).csv_str s) "tok"
        = some { method := "PUT"
                 url := "https://api.domo.com/v1/datasets/" ++ "ds1" ++ "/data"
                 headers := [("Authorization", "Bearer " ++ "tok"),
                             ("Content-Type", "text/csv")]
                 body := s } :=
  c7_upload_no_data_and_csv_body
    (⟨(), "ds1", none⟩ : DatasetApiUploadBuilder Unit) "tok"
    (fun _ => ⟨200, ""⟩) (fun _ => "OK") rfl

/-- Claim C8, confirmed: a newly constructed list builder has
`limit = some 50`, `offset = none`, `sort = some "name"`; and for every
builder and every `n`, `set_limit n` sets the `limit` field to `some n`
and leaves `offset`, `sort` and the client handle unchanged.  The setter
is a pure field update taking no network parameter, so no network I/O
can occur before `execute`. -/
theorem c8_list_builder_defaults_and_limit_frame {Api : Type}
    (client : Api) (b : DatasetApiListBuilder Api) (n : Nat) :
    (DatasetApiListBuilder.new client).limit = some 50 ∧
    (DatasetApiListBuilder.new client).offset = none ∧
    (DatasetApiListBuilder.new client).sort = some "name" ∧
    (b.set_limit n).limit = some n ∧
    (b.set_limit n).offset = b.offset ∧
    (b.set_limit n).sort = b.sort ∧
    (b.set_limit n).api = b.api :=
  ⟨rfl, rfl, rfl, rfl, rfl, rfl, rfl⟩

/-- Claim C9, confirmed: in the upload builder's `execute`, token
acquisition comes before the no-data check — a failed token acquisition
makes `execute` return that token error whatever the data field holds
(in particular when no data was set), and the `NoDataToUpload` error
arises only when token acquisition succeeded. -/
theorem c9_upload_token_before_data_check {Api : Type}
    (b : DatasetApiUploadBuilder Api) (e : ApiError) (t : String)
    (net : Request → HttpResponse) (reason : Nat → String)
    (h : b.data = none) :
    upload_execute b (.error e) net reason = .error e ∧
    upload_execute b (.ok t) net reason
      = .error (.domoErr "No Data was set to upload") := by
  refine ⟨rfl, ?_⟩
  simp [upload_execute, upload_request, h]

/-- Witness for C9 at a concrete data-less upload builder, a concrete
token-acquisition error and a concrete token. -/
theorem c9_upload_token_before_data_check_witness :
    upload_execute (⟨(), "ds1", none⟩ : DatasetApiUploadBuilder Unit)
        (.error (.tokenFailure "auth down")) (fun _ => ⟨200, ""⟩)
        (fun _ => "OK")
      = .error (.tokenFailure "auth down") ∧
    upload_execute (⟨(), "ds1", none⟩ : DatasetApiUploadBuilder Unit)
        (.ok "tok") (fun _ => ⟨200, ""⟩) (fun _ => "OK")
      = .error (.domoErr "No Data was set to upload") :=
  c9_upload_token_before_data_check
    (⟨(), "ds1", none⟩ : DatasetApiUploadBuilder Unit)
    (.tokenFailure "auth down") "tok" (fun _ => ⟨200, ""⟩) (fun _ => "OK") rfl

/-- Claim C10, confirmed: data-setting calls on the upload builder
overwrite rather than accumulate — `csv_str s1` then `csv_str s2` equals
`csv_str s2` alone; `csv_str s2` after a successful `data` call discards
the serialized records, again equalling `csv_str s2` alone; and the
request `execute` sends always carries exactly the builder's most
recently set data as its body. -/
theorem c10_upload_data_overwrite {Api : Type}
    (b b' : DatasetApiUploadBuilder Api) (s1 s2 : String)
    (serialized : Except ApiError String) (t : String)
    (h : b.data_records serialized = .ok b') :
    (b.csv_str s1).csv_str s2 = b.csv_str s2 ∧
    b'.csv_str s2 = b.csv_str s2 ∧
    (∀ bb : DatasetApiUploadBuilder Api,
      (upload_request bb t).map Request.body = bb.data) := by
  refine ⟨rfl, ?_, ?_⟩
  · cases serialized with
    | error e => simp [DatasetApiUploadBuilder.data_records] at h
    | ok s =>
      simp [DatasetApiUploadBuilder.data_records] at h
      subst h
      rfl
  · intro bb
    cases hb : bb.data <;> simp [upload_request, hb]

/-- Witness for C10 at a concrete builder whose `data` call succeeded
with the serialized string "x,y". -/
theorem c10_upload_data_overwrite_witness :
    (((⟨(), "ds1", none⟩ : DatasetApiUploadBuilder Unit).csv_str
        "a,b").csv_str "c,d")
      = (⟨(), "ds1", none⟩ : DatasetApiUploadBuilder Unit).csv_str "c,d" ∧
    (⟨(), "ds1", some "x,y"⟩ : DatasetApiUploadBuilder Unit).csv_str "c,d"
      = (⟨(), "ds1", none⟩ : DatasetApiUploadBuilder Unit).csv_str "c,d" ∧
    (∀ bb : DatasetApiUploadBuilder Unit,
      (upload_request bb "tok").map Request.body = bb.data) :=
  c10_upload_data_overwrite
    (⟨(), "ds1", none⟩ : DatasetApiUploadBuilder Unit)
    (⟨(), "ds1", some "x,y"⟩ : DatasetApiUploadBuilder Unit)
    "a,b" "c,d" (.ok "x,y") "tok" rfl

end Domo
